import Mathlib

set_option maxHeartbeats 1000000

/-!
Verification development for the request-scoped telemetry lifecycle coordinator
in packages/nextjs/src/utils/withSentry.ts, together with the trace-propagation
token functions exercised by the Span test file.

Pure string manipulation is embedded directly; the asynchronous control flow of
the wrapper (monkeypatched end method, setImmediate deferral, flush) is embedded
as a small deterministic event-loop machine whose tasks are the suspension
points of the source, with one queue of same-turn continuations (microtasks) and
one queue of next-turn callbacks (setImmediate callbacks). External collaborator
primitives that are not part of this repository snapshot (transaction finish,
the platform end method, the backend capture and flush operations, traceparent
parsing) are modelled from the spec, each marked in its doc comment.
-/

/- ## String utilities (JS String.prototype.replace, first occurrence) -/

/-- Index of the first occurrence of pat as a contiguous block in the list,
counting from i; none when pat does not occur. Mirrors JS String.indexOf. -/
def firstIndexFrom (pat : List Char) : List Char → Nat → Option Nat
  | [], i => if List.isPrefixOf pat [] then some i else none
  | c :: cs, i =>
      if List.isPrefixOf pat (c :: cs) then some i
      else firstIndexFrom pat cs (i + 1)

/-- Replace the first occurrence of pat in l by rep; l unchanged when pat does
not occur. -/
def replaceFirstList (l pat rep : List Char) : List Char :=
  match firstIndexFrom pat l 0 with
  | none => l
  | some i => l.take i ++ rep ++ l.drop (i + pat.length)

/-- JS String.prototype.replace with a string pattern replaces only the first
occurrence; used at withSentry.ts line 57. -/
def replaceFirst (s pat rep : String) : String :=
  String.mk (replaceFirstList s.data pat.data rep.data)

/-- The query-parameter substitution loop of boundHandler (withSentry.ts lines
53-59): for each query entry in insertion order, replace the first occurrence
of the entry's value in the path by the bracketed key. -/
def normalizePath (reqPath : String) (query : List (String × String)) : String :=
  query.foldl (fun p kv => replaceFirst p kv.2 ("[" ++ kv.1 ++ "]")) reqPath

/-- ASCII upper-casing of a character, as JS toUpperCase acts on method
names. -/
def upperChar (c : Char) : Char :=
  if 'a' ≤ c && c ≤ 'z' then Char.ofNat (c.toNat - 32) else c

/-- ASCII upper-casing of a string. -/
def upperString (s : String) : String :=
  String.mk (s.data.map upperChar)

/-- Transaction name derivation (withSentry.ts lines 60-64): upper-cased method
(default GET), a space, then the normalized path. -/
def transactionName (method : Option String) (reqPath : String)
    (query : List (String × String)) : String :=
  upperString (method.getD "GET") ++ " " ++ normalizePath reqPath query

/- ## Trace-propagation token parsing (TraceContextExtractor) -/

/-- Lowercase hexadecimal digit, as used by the traceparent wire format. -/
def isHexDigit (c : Char) : Bool :=
  ('0' ≤ c && c ≤ '9') || ('a' ≤ c && c ≤ 'f')

/-- A dash-free hexadecimal group of exactly n characters. -/
def hexGroup (l : List Char) (n : Nat) : Bool :=
  l.length == n && l.all isHexDigit

/-- Split a character list at every dash, keeping empty groups, so that the
groups interleaved with dashes reassemble the input. -/
def splitDash : List Char → List (List Char)
  | [] => [[]]
  | c :: cs =>
      if c = '-' then [] :: splitDash cs
      else
        match splitDash cs with
        | [] => [[c]]
        | g :: gs => (c :: g) :: gs

/-- Interleave dash characters between groups; left inverse of splitDash. -/
def joinDash : List (List Char) → List Char
  | [] => []
  | [a] => a
  | a :: b :: rest => a ++ '-' :: joinDash (b :: rest)

/-- Parsed trace-propagation token: trace id, parent span id and the sampling
decision carried by the flags field. -/
structure TraceparentData where
  traceId : String
  parentSpanId : String
  sampled : Bool
deriving DecidableEq, Repr

/-- Modelled from the spec: extractTraceparentData lives in the tracing package,
which is not part of this snapshot; the spec fixes its contract as accepting
exactly the shape two-hex-version dash thirty-two-hex-trace-id dash sixteen-hex
span-id dash two-hex-flags and yielding none on every other input, without ever
failing loudly. -/
def extractTraceparentData (s : String) : Option TraceparentData :=
  match splitDash s.data with
  | [v, t, p, f] =>
      if hexGroup v 2 && hexGroup t 32 && hexGroup p 16 && hexGroup f 2 then
        some { traceId := String.mk t, parentSpanId := String.mk p,
               sampled := f == ['0', '1'] }
      else none
  | _ => none

/-- The wire format stated by the spec, as a structural property of the
character list: four dash-separated hexadecimal groups of widths 2, 32, 16, 2. -/
def traceparentFormat (l : List Char) : Prop :=
  ∃ v t p f, l = v ++ '-' :: (t ++ '-' :: (p ++ '-' :: f)) ∧
    hexGroup v 2 = true ∧ hexGroup t 32 = true ∧
    hexGroup p 16 = true ∧ hexGroup f 2 = true

theorem splitDash_ne_nil (l : List Char) : splitDash l ≠ [] := by
  cases l with
  | nil => simp [splitDash]
  | cons c cs =>
      simp only [splitDash]
      by_cases h : c = '-'
      · simp [h]
      · simp only [h, if_false]
        cases hs : splitDash cs <;> simp

theorem joinDash_splitDash (l : List Char) : joinDash (splitDash l) = l := by
  induction l with
  | nil => rfl
  | cons c cs ih =>
      simp only [splitDash]
      by_cases h : c = '-'
      · subst h
        simp only [if_pos rfl]
        cases hs : splitDash cs with
        | nil => exact absurd hs (splitDash_ne_nil cs)
        | cons g gs =>
            rw [hs] at ih
            simpa [joinDash] using ih
      · simp only [h, if_false]
        cases hs : splitDash cs with
        | nil => exact absurd hs (splitDash_ne_nil cs)
        | cons g gs =>
            rw [hs] at ih
            cases gs with
            | nil => simpa [joinDash] using ih
            | cons g2 gs2 => simpa [joinDash] using ih

theorem splitDash_no_dash (a : List Char) (h : ∀ c ∈ a, c ≠ '-') :
    splitDash a = [a] := by
  induction a with
  | nil => rfl
  | cons c cs ih =>
      simp only [splitDash]
      have hc : c ≠ '-' := h c (List.mem_cons_self c cs)
      simp only [hc, if_false]
      rw [ih (fun x hx => h x (List.mem_cons_of_mem c hx))]

theorem splitDash_append_dash (a r : List Char) (h : ∀ c ∈ a, c ≠ '-') :
    splitDash (a ++ '-' :: r) = a :: splitDash r := by
  induction a with
  | nil => simp [splitDash]
  | cons c cs ih =>
      have hc : c ≠ '-' := h c (List.mem_cons_self c cs)
      simp only [List.cons_append, splitDash, hc, if_false, List.append_eq]
      rw [ih (fun x hx => h x (List.mem_cons_of_mem c hx))]

theorem hexGroup_no_dash (l : List Char) (n : Nat) (h : hexGroup l n = true) :
    ∀ c ∈ l, c ≠ '-' := by
  intro c hc
  have hall : l.all isHexDigit = true := by
    have := h
    unfold hexGroup at this
    exact (Bool.and_eq_true_iff.mp this).2
  have hhex : isHexDigit c = true := by
    rw [List.all_eq_true] at hall
    exact hall c hc
  intro hdash
  subst hdash
  simp [isHexDigit] at hhex

theorem extract_isSome_iff_format (s : String) :
    (extractTraceparentData s).isSome = true ↔ traceparentFormat s.data := by
  constructor
  · intro h
    unfold extractTraceparentData at h
    split at h
    next v t p f heq =>
      split at h
      next hc =>
        simp only [Bool.and_eq_true] at hc
        obtain ⟨⟨⟨hv, ht⟩, hp⟩, hf⟩ := hc
        refine ⟨v, t, p, f, ?_, hv, ht, hp, hf⟩
        have hj := joinDash_splitDash s.data
        rw [heq] at hj
        simpa [joinDash] using hj.symm
      next hc => simp at h
    next hne => simp at h
  · rintro ⟨v, t, p, f, hl, hv, ht, hp, hf⟩
    unfold extractTraceparentData
    rw [hl, splitDash_append_dash v _ (hexGroup_no_dash v 2 hv),
        splitDash_append_dash t _ (hexGroup_no_dash t 32 ht),
        splitDash_append_dash p _ (hexGroup_no_dash p 16 hp),
        splitDash_no_dash f (hexGroup_no_dash f 2 hf)]
    simp [hv, ht, hp, hf]

/- ## Span and the traceparent round trip -/

/-- The 32-character trace id made of the letter a, from the Span test file. -/
def aTraceId : String := String.mk (List.replicate 32 'a')

/-- The 16-character span id made of the letter b, from the Span test file. -/
def bSpanId : String := String.mk (List.replicate 16 'b')

/-- The malformed token of the Span test file: well-formed version, trace id
and span id fields, but a one-letter flags field. -/
def badTraceparent : String := "00-" ++ aTraceId ++ "-" ++ bSpanId ++ "-x"

/-- A well-formed token over the same trace id and span id, unsampled. -/
def goodTraceparent : String := "00-" ++ aTraceId ++ "-" ++ bSpanId ++ "-00"

/-- Identifier triple stored as the parent of a span built from a token. -/
structure SpanRecord where
  traceId : String
  spanId : String
  recorded : Bool
deriving DecidableEq, Repr

/-- A span as observed by the Span test file: its own identifiers, the recorded
flag, and an optional parent. -/
structure Span where
  traceId : String
  spanId : String
  recorded : Bool
  parent : Option SpanRecord
deriving DecidableEq, Repr

/-- The all-zero 16-character span id. -/
def zeroSpanId : String := String.mk (List.replicate 16 '0')

/-- Modelled from the spec: the span id generator is part of the backend, which
is not in this snapshot; the spec requires only that the freshly generated span
id is a 16-character hexadecimal id distinct from the parent's, so the model
picks a canonical id and avoids the one collision deterministically. -/
def freshSpanId (parentSpanId : String) : String :=
  if parentSpanId = zeroSpanId then String.mk ('1' :: List.replicate 15 '0')
  else zeroSpanId

theorem freshSpanId_ne (p : String) : freshSpanId p ≠ p := by
  unfold freshSpanId
  by_cases h : p = zeroSpanId
  · rw [if_pos h, h]
    decide
  · rw [if_neg h]
    exact fun he => h he.symm

/-- Modelled from the spec: Span.toTraceparent is not in this snapshot (only
its test is); the spec's wire format is version, trace id, span id and flags
joined by dashes, with version 00 and flags 01 when recorded, 00 otherwise. -/
def Span.toTraceparent (s : Span) : String :=
  "00-" ++ s.traceId ++ "-" ++ s.spanId ++ "-" ++ (if s.recorded then "01" else "00")

/-- Modelled from the spec: Span.fromTraceparent is not in this snapshot (only
its test is); it parses the token and, on success, builds a new span that keeps
the token's trace id, records the token's identifiers as its parent, and takes
a freshly generated span id distinct from the parent's. -/
def Span.fromTraceparent (s : String) : Option Span :=
  match extractTraceparentData s with
  | some d =>
      some { traceId := d.traceId, spanId := freshSpanId d.parentSpanId,
             recorded := d.sampled,
             parent := some { traceId := d.traceId, spanId := d.parentSpanId,
                              recorded := d.sampled } }
  | none => none

/-- C9: for every input string, trace-context extraction returns a parsed token
exactly when the input matches the two-hex-version, thirty-two-hex-trace-id,
sixteen-hex-span-id, two-hex-flags dash-separated format, and returns none on
every other shape; in particular the token whose flags field is the single
letter x parses to none; the extractor is a total function, so it never
raises. -/
theorem traceparent_extract_format_or_none :
    (∀ s : String,
      (extractTraceparentData s).isSome = true ↔ traceparentFormat s.data) ∧
    extractTraceparentData badTraceparent = none :=
  ⟨extract_isSome_iff_format, by decide⟩

theorem traceparent_extract_format_or_none_witness :
    (extractTraceparentData goodTraceparent).isSome = true :=
  (traceparent_extract_format_or_none.1 goodTraceparent).mpr
    ⟨['0', '0'], List.replicate 32 'a', List.replicate 16 'b', ['0', '0'],
     by decide, by decide, by decide, by decide, by decide⟩

/-- C10: building a token from the span with trace id of 32 letters a and span
id of 16 letters b and parsing it back yields a span with the same trace id,
whose parent carries the same trace id and the same parent span id, and whose
own span id is freshly generated and distinct from the parent's; the generator
always yields an id distinct from the parent's. -/
theorem span_traceparent_roundtrip :
    (∃ sp, Span.fromTraceparent (Span.toTraceparent
        { traceId := aTraceId, spanId := bSpanId, recorded := false,
          parent := none }) = some sp ∧
      sp.traceId = aTraceId ∧
      sp.parent = some { traceId := aTraceId, spanId := bSpanId,
                         recorded := false } ∧
      sp.spanId ≠ bSpanId) ∧
    (∀ p : String, freshSpanId p ≠ p) := by
  refine ⟨⟨{ traceId := aTraceId, spanId := freshSpanId bSpanId,
             recorded := false,
             parent := some { traceId := aTraceId, spanId := bSpanId,
                              recorded := false } },
          by decide, rfl, rfl, freshSpanId_ne bSpanId⟩, freshSpanId_ne⟩

theorem span_traceparent_roundtrip_witness :
    freshSpanId (String.mk (List.replicate 16 'c')) ≠
      String.mk (List.replicate 16 'c') :=
  span_traceparent_roundtrip.2 (String.mk (List.replicate 16 'c'))

/- ## The wrapper's data model -/

/-- JS primitive values a handler might throw. -/
inductive Prim
  | str (s : String)
  | num (n : Int)
  | bool (b : Bool)
deriving DecidableEq, Repr

/-- Error values with reference identity: raw primitives have no identity;
boxed wrappers and plain objects carry a numeric identity so that flags can be
attached to them and identity of a rethrown value can be stated. -/
inductive JsErr
  | prim (p : Prim)
  | boxed (p : Prim) (id : Nat)
  | obj (id : Nat)
deriving DecidableEq, Repr

/-- Modelled from the spec: objectify from the utils package is not in this
snapshot; the spec says a raised primitive is boxed into a tagged wrapper so a
handled flag can be attached, while non-primitive values pass through
unchanged. The fresh identity of the new wrapper is passed in. -/
def objectify (freshId : Nat) : JsErr → JsErr
  | .prim p => .boxed p freshId
  | .boxed p i => .boxed p i
  | .obj i => .obj i

/-- The identity a captured-flag can be attached to, if any. -/
def errRefId : JsErr → Option Nat
  | .prim _ => none
  | .boxed _ i => some i
  | .obj i => some i

/-- The transaction as the wrapper observes it: naming data, the http status
written before finishing, the already-finished guard flag, and a counter of
how many times the real finishing work actually ran. -/
structure SentryTransaction where
  name : String
  op : String
  traceId : String
  parentSpanId : Option String
  httpStatus : Option Nat
  finishedFlag : Bool
  finishCount : Nat
deriving DecidableEq, Repr

/-- Modelled from the spec: Transaction.finish lives in the tracing backend,
not in this snapshot; the spec requires it to be idempotent, guarded by an
internal already-finished flag, so a second invocation is a no-op. -/
def finishTransaction (t : SentryTransaction) : SentryTransaction :=
  if t.finishedFlag then t
  else { t with finishedFlag := true, finishCount := t.finishCount + 1 }

/-- The augmented response: the mutable finished flag and status fields of the
platform response plus the two optional attachment slots declared by
AugmentedNextApiResponse. -/
structure Res where
  finished : Bool
  statusCode : Nat
  statusMessage : String
  sentryTransaction : Option SentryTransaction
  sentryCapturedError : Option JsErr
deriving DecidableEq, Repr

/-- A telemetry event as reported to the backend: the exception value and the
mechanism metadata attached by the scope's event processor. -/
structure CapturedEvent where
  exception : JsErr
  mechanismType : Option String
  mechanismHandled : Option Bool
deriving DecidableEq, Repr

/-- Observable actions, recorded with the event-loop turn they occur in. -/
inductive Ev
  | setFinishedTrue
  | hostCheck (observed : Bool)
  | setHttpStatus (n : Nat)
  | txnFinish (status : Option Nat) (wasNoop : Bool)
  | flushStart
  | flushDone (ok : Bool)
  | setFinishedFalse
  | origEndCall (writeAfterEnd : Bool)
  | captureCall (e : JsErr) (reported : Bool)
  | setStatus500
  | rethrow (e : JsErr)
deriving DecidableEq, Repr

/-- Global machine state: the response, the flag store and report log of the
backend, the mechanism registered on the scope by the catch block, the count of
completed original end calls, the error propagated out of the bound handler,
and the recorded trace of (turn, action) pairs. The flushOk field is the
configuration of the external flush collaborator: whether its drain-and-send
succeeds or fails. -/
structure St where
  res : Res
  flushOk : Bool
  flaggedIds : List Nat
  reported : List CapturedEvent
  scopeMechanism : Option (String × Bool)
  endCalls : Nat
  rethrown : Option JsErr
  trace : List (Nat × Ev)
deriving DecidableEq, Repr

/-- Append an observable action at the given turn. -/
def logEv (turn : Nat) (e : Ev) (st : St) : St :=
  { st with trace := st.trace ++ [(turn, e)] }

/- ## The wrapper's suspension points as event-loop tasks -/

/-- What resumes once finishSentryWork's promise resolves: either the rest of
the wrapped end method (newEnd, withSentry.ts lines 178-183) or the rest of
the catch block (line 159). -/
inductive EndCont
  | fromEnd
  | fromCatch (e : JsErr)
deriving DecidableEq, Repr

/-- The pending continuations of the source, one per suspension point:
the setImmediate callback of finishSentryWork (lines 195-200), the
awaited flush step in its try block (lines 206-212), and the code after
finishSentryWork resolves in the caller. -/
inductive LoopTask
  | immediateCb (k : EndCont)
  | flushStep (k : EndCont)
  | afterFinishWork (k : EndCont)
deriving DecidableEq, Repr

/-- The synchronous prefix of finishSentryWork (withSentry.ts lines 187-201):
read the transaction attached to the response; when present, write the
response's status code into it via setHttpStatus and schedule the setImmediate
callback for the next event-loop turn, suspending on its promise; when absent,
proceed directly to the flush step in the same turn. Returns the new state,
the same-turn continuations and the next-turn callbacks. -/
def finishSentryWorkStart (turn : Nat) (st : St) (k : EndCont) :
    St × List LoopTask × List LoopTask :=
  match st.res.sentryTransaction with
  | some t =>
      let t2 := { t with httpStatus := some st.res.statusCode }
      let st2 := logEv turn (.setHttpStatus st.res.statusCode)
        { st with res := { st.res with sentryTransaction := some t2 } }
      (st2, [], [LoopTask.immediateCb k])
  | none => (st, [LoopTask.flushStep k], [])

/-- The setImmediate callback (withSentry.ts lines 196-199): run
transaction.finish, whose already-finished guard makes a second run a no-op,
then resolve the promise, which resumes finishSentryWork at the flush step in
the same turn. -/
def immediateCbStep (turn : Nat) (st : St) (k : EndCont) :
    St × List LoopTask × List LoopTask :=
  match st.res.sentryTransaction with
  | some t =>
      let st2 := logEv turn (.txnFinish t.httpStatus t.finishedFlag)
        { st with res := { st.res with
            sentryTransaction := some (finishTransaction t) } }
      (st2, [LoopTask.flushStep k], [])
  | none => (st, [LoopTask.flushStep k], [])

/-- The flush step of finishSentryWork (withSentry.ts lines 206-212): await
flush inside try-catch; a failing drain is logged and swallowed, and either
way execution resumes at the caller's continuation. The configured flushOk
field selects the external collaborator's outcome. -/
def flushStepRun (turn : Nat) (st : St) (k : EndCont) :
    St × List LoopTask × List LoopTask :=
  let st2 := logEv turn (.flushDone st.flushOk) (logEv turn .flushStart st)
  (st2, [LoopTask.afterFinishWork k], [])

/-- Modelled from the spec: the platform's original end method is external; it
faults with a write-after-end error when the finished flag is already set and
otherwise completes the response, setting the flag. -/
def origEndRun (turn : Nat) (st : St) : St :=
  if st.res.finished then logEv turn (.origEndCall true) st
  else
    logEv turn (.origEndCall false)
      { st with res := { st.res with finished := true },
                endCalls := st.endCalls + 1 }

/-- The code that resumes once finishSentryWork's promise resolves. On the
wrapped end path (withSentry.ts lines 178-183): flip the finished flag back to
false so the original end does not raise write-after-end, then delegate to the
original end. On the catch path (line 159): rethrow the boxed error out of the
bound handler. -/
def afterFinishWorkRun (turn : Nat) (st : St) (k : EndCont) :
    St × List LoopTask × List LoopTask :=
  match k with
  | .fromEnd =>
      let st2 := logEv turn .setFinishedFalse
        { st with res := { st.res with finished := false } }
      (origEndRun turn st2, [], [])
  | .fromCatch e =>
      (logEv turn (.rethrow e) { st with rethrown := some e }, [], [])

/-- Dispatch one pending task. -/
def stepTask (turn : Nat) (st : St) : LoopTask → St × List LoopTask × List LoopTask
  | .immediateCb k => immediateCbStep turn st k
  | .flushStep k => flushStepRun turn st k
  | .afterFinishWork k => afterFinishWorkRun turn st k

/-- The event loop: run the current turn's tasks in order, accumulating
same-turn continuations at the back of the current queue and setImmediate
callbacks into the next turn's queue; when the current turn drains, advance to
the next turn. Returns none only if the fuel is exhausted, so a some result
witnesses termination. -/
def runTasks : Nat → Nat → St → List LoopTask → List LoopTask → Option St
  | 0, _, _, _, _ => none
  | _ + 1, _, st, [], [] => some st
  | fuel + 1, turn, st, [], next => runTasks fuel (turn + 1) st next []
  | fuel + 1, turn, st, t :: rest, next =>
      match stepTask turn st t with
      | (st2, same, later) => runTasks fuel turn st2 (rest ++ same) (next ++ later)

/- ## Error capture -/

/-- Builds the reported event: the mechanism metadata added by the event
processor the catch block registers on the scope (withSentry.ts lines
132-143) is applied to the captured exception. -/
def applyScopeMechanism (m : Option (String × Bool)) (e : JsErr) :
    CapturedEvent :=
  { exception := e, mechanismType := m.map Prod.fst,
    mechanismHandled := m.map Prod.snd }

/-- Modelled from the spec: captureException of the backend is not in this
snapshot; per the spec the point of boxing is that a seen flag can be attached
to the captured value's identity, preventing the same instance from being
reported twice, so capture of an already-flagged value is a no-op. Raw
primitives carry no identity and can never be flagged. -/
def captureException (turn : Nat) (st : St) (e : JsErr) : St :=
  match errRefId e with
  | some i =>
      if st.flaggedIds.contains i then logEv turn (.captureCall e false) st
      else
        logEv turn (.captureCall e true)
          { st with flaggedIds := st.flaggedIds ++ [i],
                    reported := st.reported ++
                      [applyScopeMechanism st.scopeMechanism e] }
  | none =>
      logEv turn (.captureCall e true)
        { st with reported := st.reported ++
            [applyScopeMechanism st.scopeMechanism e] }

/- ## Request scenarios -/

/-- The transaction started for the spec's end-to-end request, GET /a/5/b/5
with query entries x and y both 5: name and op are computed by boundHandler
(withSentry.ts lines 60-70); the identifiers come from the backend's
startTransaction, external to this snapshot, here an arbitrary fresh trace id
and no parent since no propagation header is set. -/
def scenarioTransaction : SentryTransaction :=
  { name := transactionName (some "GET") "/a/5/b/5" [("x", "5"), ("y", "5")],
    op := "http.server",
    traceId := aTraceId,
    parentSpanId := none,
    httpStatus := none, finishedFlag := false, finishCount := 0 }

/-- State at the moment the bound handler enters its try block with tracing
enabled: platform defaults on the response (not finished, status 200) and the
transaction attached to the response at withSentry.ts line 75. -/
def initSt (flushOk : Bool) : St :=
  { res := { finished := false, statusCode := 200, statusMessage := "OK",
             sentryTransaction := some scenarioTransaction,
             sentryCapturedError := none },
    flushOk := flushOk,
    flaggedIds := [], reported := [], scopeMechanism := none,
    endCalls := 0, rethrown := none, trace := [] }

/-- The success path with tracing enabled, run to quiescence. In turn 0 the
handler calls the wrapped end method once, whose body suspends on
finishSentryWork after scheduling the setImmediate callback for the next turn;
the try block then sets the finished flag to true (withSentry.ts line 111),
and the host's synchronous post-handler completion check, modelled from the
spec, observes the flag while still in turn 0. The event loop then drains. -/
def runSuccess (flushOk : Bool) : Option St :=
  let start := finishSentryWorkStart 0 (initSt flushOk) EndCont.fromEnd
  let st2 := logEv 0 Ev.setFinishedTrue
    { start.1 with res := { start.1.res with finished := true } }
  let st3 := logEv 0 (Ev.hostCheck st2.res.finished) st2
  runTasks 32 0 st3 start.2.1 start.2.2

/-- The boxed form of the thrown string boom, with fresh identity 0. -/
def boomBoxed : JsErr := objectify 0 (JsErr.prim (Prim.str "boom"))

/-- The failure path with tracing enabled: the handler throws the string boom;
the catch block (withSentry.ts lines 121-161) boxes it via objectify,
registers the instrument mechanism on the scope, captures the boxed error,
sets the response status to 500 Internal Server Error, suspends on
finishSentryWork, and once that resolves rethrows the same boxed instance.
Line 147, which would attach the captured error to the response, is commented
out in the source, so no attachment happens here. -/
def runError (flushOk : Bool) : Option St :=
  let st1 := { initSt flushOk with scopeMechanism := some ("instrument", true) }
  let st2 := captureException 0 st1 boomBoxed
  let st3 := logEv 0 Ev.setStatus500
    { st2 with res := { st2.res with
                          statusCode := 500
                          statusMessage := "Internal Server Error" } }
  let start := finishSentryWorkStart 0 st3 (EndCont.fromCatch boomBoxed)
  runTasks 32 0 start.1 start.2.1 start.2.2

/-- The handler invokes the wrapped end method twice in the same synchronous
stretch: each invocation suspends on its own finishSentryWork call, scheduling
two setImmediate callbacks for the next turn; the second transaction.finish is
a guarded no-op, and each resumed end body flips the finished flag back to
false right before delegating, so the platform end never faults. -/
def runDoubleEnd (flushOk : Bool) : Option St :=
  let s1 := finishSentryWorkStart 0 (initSt flushOk) EndCont.fromEnd
  let s2 := finishSentryWorkStart 0 s1.1 EndCont.fromEnd
  let st2 := logEv 0 Ev.setFinishedTrue
    { s2.1 with res := { s2.1.res with finished := true } }
  let st3 := logEv 0 (Ev.hostCheck st2.res.finished) st2
  runTasks 32 0 st3 (s1.2.1 ++ s2.2.1) (s1.2.2 ++ s2.2.2)

/- ## Trace observations -/

/-- Run a Boolean check on a terminated run; an exhausted run fails it. -/
def checkRun (f : St → Bool) : Option St → Bool
  | some st => f st
  | none => false

def countEv (p : Ev → Bool) (tr : List (Nat × Ev)) : Nat :=
  (tr.filter (fun te => p te.2)).length

def firstIdx (p : Ev → Bool) (tr : List (Nat × Ev)) : Option Nat :=
  tr.findIdx? (fun te => p te.2)

/-- Some action satisfying p occurs, some action satisfying q occurs, and the
first p-action strictly precedes the first q-action in the trace. -/
def before (p q : Ev → Bool) (tr : List (Nat × Ev)) : Bool :=
  match firstIdx p tr, firstIdx q tr with
  | some i, some j => Nat.blt i j
  | _, _ => false

/-- Every action satisfying p happens in event-loop turn n or later. -/
def allTurnGe (n : Nat) (p : Ev → Bool) (tr : List (Nat × Ev)) : Bool :=
  tr.all (fun te => !(p te.2) || Nat.ble n te.1)

/-- Some action satisfying p happens in event-loop turn n. -/
def hasAtTurn (n : Nat) (p : Ev → Bool) (tr : List (Nat × Ev)) : Bool :=
  tr.any (fun te => te.1 == n && p te.2)

def isTxnFinish : Ev → Bool
  | .txnFinish _ _ => true
  | _ => false

def isTxnFinishReal : Ev → Bool
  | .txnFinish _ false => true
  | _ => false

def isTxnFinishNoop : Ev → Bool
  | .txnFinish _ true => true
  | _ => false

def isTxnFinishReading500 : Ev → Bool
  | .txnFinish (some 500) false => true
  | _ => false

def isFlushDone : Ev → Bool
  | .flushDone _ => true
  | _ => false

def isOrigEnd : Ev → Bool
  | .origEndCall _ => true
  | _ => false

def isWriteAfterEndFault : Ev → Bool
  | .origEndCall true => true
  | _ => false

def isSetFinishedFalseEv : Ev → Bool
  | .setFinishedFalse => true
  | _ => false

def isSetFinishedTrueEv : Ev → Bool
  | .setFinishedTrue => true
  | _ => false

def isHostCheckTrueEv : Ev → Bool
  | .hostCheck true => true
  | _ => false

def isSetStatus500Ev : Ev → Bool
  | .setStatus500 => true
  | _ => false

def isSetHttpStatus500 : Ev → Bool
  | .setHttpStatus 500 => true
  | _ => false

def isCaptureEv : Ev → Bool
  | .captureCall _ _ => true
  | _ => false

def isRethrowEv : Ev → Bool
  | .rethrow _ => true
  | _ => false

/- ## Claim checkers -/

/-- C1 observations on a success-path run: the original end method ran exactly
once; the transaction's real finishing work ran strictly before the flush
completion, which ran strictly before the original end; and the attached
transaction ends the run finished, having been finished exactly once. -/
def c1Check (st : St) : Bool :=
  countEv isOrigEnd st.trace == 1 &&
  st.endCalls == 1 &&
  before isTxnFinishReal isFlushDone st.trace &&
  before isFlushDone isOrigEnd st.trace &&
  (match st.res.sentryTransaction with
   | some t => t.finishedFlag && t.finishCount == 1
   | none => false)

/-- C2 observations on a success-path run: the finished flag is raised in turn
0 and the host's synchronous check, also in turn 0, happens after the raise and
observes true; the flag flip back to false, the original end, the transaction
finish and the flush completion all happen in turn 1 or later; flip and
original end each happen exactly once. -/
def c2Check (st : St) : Bool :=
  hasAtTurn 0 isSetFinishedTrueEv st.trace &&
  hasAtTurn 0 isHostCheckTrueEv st.trace &&
  before isSetFinishedTrueEv isHostCheckTrueEv st.trace &&
  before isHostCheckTrueEv isSetFinishedFalseEv st.trace &&
  allTurnGe 1 isSetFinishedFalseEv st.trace &&
  allTurnGe 1 isOrigEnd st.trace &&
  allTurnGe 1 isTxnFinish st.trace &&
  allTurnGe 1 isFlushDone st.trace &&
  countEv isSetFinishedFalseEv st.trace == 1 &&
  countEv isOrigEnd st.trace == 1

/-- C3 observations on a double-end run: the run terminates; the transaction's
real finishing work ran once and the second finish was a guarded no-op; flush
was awaited twice without anything being thrown out of the bound handler; and
the platform end never saw a write-after-end fault. -/
def c3Check (st : St) : Bool :=
  countEv isTxnFinishReal st.trace == 1 &&
  countEv isTxnFinishNoop st.trace == 1 &&
  countEv isWriteAfterEndFault st.trace == 0 &&
  countEv isFlushDone st.trace == 2 &&
  st.rethrown.isNone &&
  (match st.res.sentryTransaction with
   | some t => t.finishedFlag && t.finishCount == 1
   | none => false)

/-- C5 observations on a failure-path run: exactly one event was reported, it
carries the boxed error with mechanism type instrument and handled true, no
captured-error reference was attached to the response, and capturing the same
boxed instance again changes neither the report log nor the flag store. -/
def c5Check (st : St) : Bool :=
  (match st.reported with
   | [ev] =>
       decide (ev.exception = boomBoxed) &&
       decide (ev.mechanismType = some "instrument") &&
       decide (ev.mechanismHandled = some true)
   | _ => false) &&
  st.res.sentryCapturedError.isNone &&
  decide ((captureException 9 st boomBoxed).reported = st.reported) &&
  decide ((captureException 9 st boomBoxed).flaggedIds = st.flaggedIds)

/-- C6 observations on a failure-path run: the response carries status 500
with the generic message; the status fixup and the write of 500 into the
transaction both precede the transaction finish, which reads 500; and the
transaction ends the run finished with http status 500. -/
def c6Check (st : St) : Bool :=
  decide (st.res.statusCode = 500) &&
  decide (st.res.statusMessage = "Internal Server Error") &&
  before isSetStatus500Ev isTxnFinish st.trace &&
  before isSetHttpStatus500 isTxnFinish st.trace &&
  countEv isTxnFinishReading500 st.trace == 1 &&
  (match st.res.sentryTransaction with
   | some t => t.finishedFlag && decide (t.httpStatus = some 500)
   | none => false)

/-- C7 observations on a failure-path run: the value propagated out of the
bound handler is exactly the boxed wrapper that was captured, and the rethrow
happens after the capture, the transaction finish and the flush completion. -/
def c7Check (st : St) : Bool :=
  decide (st.rethrown = some boomBoxed) &&
  (match st.reported with
   | [ev] => decide (ev.exception = boomBoxed)
   | _ => false) &&
  before isCaptureEv isRethrowEv st.trace &&
  before isTxnFinish isRethrowEv st.trace &&
  before isFlushDone isRethrowEv st.trace

/-- C8 observations on a success-path run: the flush outcome recorded is the
configured one, yet nothing is rethrown, the original end still runs exactly
once after the flush completion, and no fault occurs. -/
def c8SuccessCheck (st : St) : Bool :=
  st.trace.any (fun te =>
    match te.2 with
    | .flushDone b => b == st.flushOk
    | _ => false) &&
  st.rethrown.isNone &&
  st.endCalls == 1 &&
  before isFlushDone isOrigEnd st.trace &&
  countEv isWriteAfterEndFault st.trace == 0

/-- C8 observations on a failure-path run: whatever the flush outcome, the
error propagated out of the bound handler is still the boxed handler error. -/
def c8ErrorCheck (st : St) : Bool :=
  st.trace.any (fun te =>
    match te.2 with
    | .flushDone b => b == st.flushOk
    | _ => false) &&
  decide (st.rethrown = some boomBoxed)

/- ## Claim theorems for the wrapper -/

/-- C1: on the success path, for either flush outcome, the original end method
runs exactly once, and only after the request's transaction has been finished
(real finishing work, exactly once) and the flush for it has completed: the
wrapped end method awaits finish-and-flush before delegating. -/
theorem wrapped_end_runs_once_after_finish_and_flush :
    ∀ flushOk : Bool, checkRun c1Check (runSuccess flushOk) = true := by
  intro flushOk
  cases flushOk <;> decide

theorem wrapped_end_runs_once_after_finish_and_flush_witness :
    checkRun c1Check (runSuccess true) = true :=
  wrapped_end_runs_once_after_finish_and_flush true

/-- C2: on the success path, for either flush outcome, the finished flag is
raised synchronously in turn 0 before the host's synchronous post-handler
check, which therefore observes true, while the deferred finalize work - the
flag flip back to false, the transaction finish, the flush and the original
end - runs only in a subsequent event-loop turn, as forced by the setImmediate
callback. -/
theorem finished_flag_visible_to_host_before_deferred_flip :
    ∀ flushOk : Bool, checkRun c2Check (runSuccess flushOk) = true := by
  intro flushOk
  cases flushOk <;> decide

theorem finished_flag_visible_to_host_before_deferred_flip_witness :
    checkRun c2Check (runSuccess true) = true :=
  finished_flag_visible_to_host_before_deferred_flip true

/-- C3: finishing an already-finished transaction is a no-op guarded by the
already-finished flag - finishTransaction is idempotent - and a run in which
the wrapped end method is invoked twice terminates with the real finishing
work done once, the second finish a guarded no-op, flush awaited twice without
anything thrown, and no write-after-end fault at the platform end. -/
theorem finish_idempotent_and_double_end_safe :
    (∀ t : SentryTransaction,
      finishTransaction (finishTransaction t) = finishTransaction t) ∧
    (∀ flushOk : Bool, checkRun c3Check (runDoubleEnd flushOk) = true) := by
  constructor
  · intro t
    cases hf : t.finishedFlag <;> simp [finishTransaction, hf]
  · intro flushOk
    cases flushOk <;> decide

theorem finish_idempotent_and_double_end_safe_witness :
    checkRun c3Check (runDoubleEnd true) = true :=
  finish_idempotent_and_double_end_safe.2 true

/-- C4 counterexample: with path /a/5/b/5 and query entries x and y both 5 in
that insertion order, the normalized segment is not /a/[x]/b/[x]: the two
occurrences of 5 do not both collapse to the first-seen key. -/
theorem normalizePath_not_collapsing_to_first_key :
    ¬ normalizePath "/a/5/b/5" [("x", "5"), ("y", "5")] = "/a/[x]/b/[x]" := by
  decide

/-- C4 amended: sequential first-occurrence substitution consumes one
occurrence per parameter: the x entry replaces the first 5, the y entry then
replaces the next remaining 5, giving /a/[x]/b/[y]; a single shared-value
entry replaces only the first occurrence; the derived transaction name
upper-cases the method accordingly. -/
theorem normalizePath_sequential_first_occurrence :
    normalizePath "/a/5/b/5" [("x", "5"), ("y", "5")] = "/a/[x]/b/[y]" ∧
    normalizePath "/a/5/b/5" [("x", "5")] = "/a/[x]/b/5" ∧
    transactionName (some "get") "/a/5/b/5" [("x", "5"), ("y", "5")] =
      "GET /a/[x]/b/[y]" := by
  refine ⟨by decide, by decide, by decide⟩

/-- C5 counterexample: on the failure-path run the response's captured-error
attachment slot stays empty - the assignment at withSentry.ts line 147 is
commented out - so the claim that a reference to the already-captured error is
attached to the response fails on this code. -/
theorem captured_error_not_attached_to_response :
    checkRun (fun st => st.res.sentryCapturedError.isNone) (runError true)
      = true := by
  decide

/-- C5 amended: the raised primitive is boxed into a tagged wrapper, the
reported event carries mechanism type instrument with handled true, capturing
the same boxed instance a second time changes neither the report log nor the
flag store, but no captured-error reference is attached to the response. -/
theorem error_boxed_tagged_and_captured_once :
    boomBoxed = JsErr.boxed (Prim.str "boom") 0 ∧
    (∀ flushOk : Bool, checkRun c5Check (runError flushOk) = true) := by
  refine ⟨rfl, ?_⟩
  intro flushOk
  cases flushOk <;> decide

theorem error_boxed_tagged_and_captured_once_witness :
    checkRun c5Check (runError true) = true :=
  error_boxed_tagged_and_captured_once.2 true

/-- C6: on the failure path, for either flush outcome, the response status is
set to 500 with the generic message before the transaction finish runs, the
write of 500 into the transaction precedes the finish, and the finish reads
http status 500, which the finished transaction still carries at the end. -/
theorem failure_sets_500_before_finish :
    ∀ flushOk : Bool, checkRun c6Check (runError flushOk) = true := by
  intro flushOk
  cases flushOk <;> decide

theorem failure_sets_500_before_finish_witness :
    checkRun c6Check (runError true) = true :=
  failure_sets_500_before_finish true

/-- C7: on the failure path, for either flush outcome, after the capture, the
transaction finish and the flush have all happened, the bound handler
propagates exactly the boxed wrapper instance that was captured, unchanged. -/
theorem rethrow_preserves_boxed_identity :
    ∀ flushOk : Bool, checkRun c7Check (runError flushOk) = true := by
  intro flushOk
  cases flushOk <;> decide

theorem rethrow_preserves_boxed_identity_witness :
    checkRun c7Check (runError true) = true :=
  rethrow_preserves_boxed_identity true

/-- C8: the flush step never throws to its caller: with the external drain
failing as much as with it succeeding, the success path still completes the
original end exactly once with nothing rethrown and no fault, and the failure
path still propagates the original boxed handler error rather than any flush
failure. -/
theorem flush_failure_swallowed_never_masks :
    ∀ flushOk : Bool,
      checkRun c8SuccessCheck (runSuccess flushOk) = true ∧
      checkRun c8ErrorCheck (runError flushOk) = true := by
  intro flushOk
  cases flushOk <;> exact ⟨by decide, by decide⟩

theorem flush_failure_swallowed_never_masks_witness :
    checkRun c8SuccessCheck (runSuccess false) = true :=
  (flush_failure_swallowed_never_masks false).1
